import Mathlib

/-!
Verification of the agent orchestration core of the `ai-starter` repository.

The Lean definitions below are a shallow embedding of the Python sources:

* `Agent`            — `mini_projects/single-file-agent/agent.py`
* `Chaining`         — `ai_workflows/02-workflow_patterns/01_prompt_chaining.py`
* `Parallelization`  — `ai_workflows/02-workflow_patterns/03_parallelization.py`
* `Orchestrator`     — `ai_workflows/02-workflow_patterns/04_orchestrator.py`
* `ResearchTools`    — `mini_projects/reflective_research_agent/src/research_tools.py`

External effects (the OpenAI completion endpoint, the Tavily/arXiv/Wikipedia
network services, JSON argument parsing) are passed in as explicit oracle
functions; the file-system state of the coding-assistant tools is threaded
explicitly.  Python exceptions are modelled with `Except`: a value
`Except.error e` models an exception carrying message `str(e) = e` that is
propagating to the caller, and a `try/except` block in the source becomes a
`match` on that value.  Python `float` scores are modelled with `Rat`.
-/

namespace PyStr

/-- `listIsPrefix pat l` is true when `pat` is a prefix of `l` (used to model
Python substring search). -/
def listIsPrefix : List Char → List Char → Bool
  | [], _ => true
  | _ :: _, [] => false
  | a :: as, b :: bs => a == b && listIsPrefix as bs

/-- `listContains pat l`: does `pat` occur contiguously inside `l`?
Models Python's `pat in s` for strings. -/
def listContains (pat : List Char) : List Char → Bool
  | [] => pat.isEmpty
  | c :: rest => listIsPrefix pat (c :: rest) || listContains pat rest

/-- Python `pat in s` (substring containment). -/
def strContains (s pat : String) : Bool := listContains pat.data s.data

/-- Drop `pat` from the front of a list, if it is a prefix. -/
def listDropPre : List Char → List Char → Option (List Char)
  | [], s => some s
  | _ :: _, [] => none
  | a :: as, b :: bs => if a == b then listDropPre as bs else none

/-- Fuelled helper for `strReplace`; the fuel is the length of the subject so
the recursion is structural.  Replaces every non-overlapping occurrence of
`pat`, scanning left to right, exactly like Python `str.replace` for a
non-empty `pat`. -/
def listReplace (pat rep : List Char) : Nat → List Char → List Char
  | 0, s => s
  | _, [] => []
  | fuel + 1, c :: rest =>
    match listDropPre pat (c :: rest) with
    | some remaining => rep ++ listReplace pat rep fuel remaining
    | none => c :: listReplace pat rep fuel rest

/-- Python `s.replace(pat, rep)` (replaces ALL occurrences) for non-empty
`pat`.  The source only calls it with a non-empty pattern. -/
def strReplace (s pat rep : String) : String :=
  ⟨listReplace pat.data rep.data s.data.length s.data⟩

/-- `listIsSuffix pat l`: is `pat` a suffix of `l`? -/
def listIsSuffix (pat l : List Char) : Bool := listIsPrefix pat.reverse l.reverse

/-- Python `s.endswith(pat)`. -/
def strEndsWith (s pat : String) : Bool := listIsSuffix pat.data s.data

/-- Python `s.strip()` over the ASCII whitespace characters. -/
def strTrim (s : String) : String :=
  ⟨((s.data.dropWhile Char.isWhitespace).reverse.dropWhile Char.isWhitespace).reverse⟩

/-- Python `s[:n]` (first `n` code points). -/
def strTake (s : String) (n : Nat) : String := ⟨s.data.take n⟩

/-- Lookup in a Python dict modelled as an insertion-ordered association
list. -/
def dictGet? (d : List (String × String)) (k : String) : Option String :=
  (d.find? (fun kv => kv.1 == k)).map Prod.snd

/-- Python `d.get(k, dflt)`. -/
def dictGetD (d : List (String × String)) (k dflt : String) : String :=
  (dictGet? d k).getD dflt

end PyStr

namespace Agent

open PyStr

/-- A snapshot of the file system as seen by the coding-assistant tools:
regular files with their contents, and directories with the entry-name list
that `os.listdir` would return. -/
structure FS where
  files : List (String × String)
  dirs : List (String × List String)
deriving Repr, DecidableEq

/-- Content of the regular file at `p`, if any. -/
def FS.readFile? (fs : FS) (p : String) : Option String :=
  (fs.files.find? (fun kv => kv.1 == p)).map Prod.snd

/-- Is `p` a regular file? -/
def FS.isFile (fs : FS) (p : String) : Bool :=
  (fs.files.find? (fun kv => kv.1 == p)).isSome

/-- Python `os.path.isdir p`. -/
def FS.isDir (fs : FS) (p : String) : Bool :=
  (fs.dirs.find? (fun kv => kv.1 == p)).isSome

/-- Python `os.path.exists p`. -/
def FS.pathExists (fs : FS) (p : String) : Bool := fs.isFile p || fs.isDir p

/-- `os.listdir p` (raw entry names). -/
def FS.listdir (fs : FS) (p : String) : List String :=
  ((fs.dirs.find? (fun kv => kv.1 == p)).map Prod.snd).getD []

/-- Write (create or overwrite) the regular file at `p`. -/
def FS.writeFile (fs : FS) (p c : String) : FS :=
  { fs with
    files :=
      if fs.isFile p then fs.files.map (fun kv => if kv.1 == p then (p, c) else kv)
      else fs.files ++ [(p, c)] }

/-- Python `os.path.join` for the relative paths the agent builds. -/
def pathJoin (a b : String) : String :=
  if a == "" then b else if strEndsWith a "/" then a ++ b else a ++ "/" ++ b

/-- Insertion sort step for `sortStrings`. -/
def insertSorted (x : String) : List String → List String
  | [] => [x]
  | y :: ys => if x ≤ y then x :: y :: ys else y :: insertSorted x ys

/-- Python `sorted` on a list of strings. -/
def sortStrings (l : List String) : List String := l.foldr insertSorted []

/-- `AIAgent._read_file`.  The `FileNotFoundError` and generic exception
handlers of the source are the two non-content branches. -/
def readFile (fs : FS) (path : String) : String :=
  match fs.readFile? path with
  | some content => "File content of " ++ path ++ ": \n" ++ content
  | none =>
    if fs.isDir path then
      "Error reading file: [Errno 21] Is a directory: \x27" ++ path ++ "\x27"
    else "File not found: " ++ path

/-- `AIAgent._list_files`. -/
def listFiles (fs : FS) (path : String) : String :=
  if !fs.pathExists path || !fs.isDir path then
    "[Error] Directory does not exist or is not a directory: " ++ path
  else
    let items := (sortStrings (fs.listdir path)).map (fun item =>
      if fs.isDir (pathJoin path item) then "[DIR] " ++ item ++ "/"
      else "[FILE] " ++ item)
    if items.length == 0 then "Empty directory: " ++ path
    else "Content of " ++ path ++ ":\n" ++ String.intercalate "\n" items

/-- `AIAgent._edit_file`.  Returns the reported result string and the updated
file system.  The `IsADirectoryError` raised by `open` on a directory path is
caught by the handler of the source, producing the `"Error editing file:"`
branches. -/
def editFile (fs : FS) (path old_text new_text : String) : String × FS :=
  if fs.pathExists path && !(old_text == "") then
    match fs.readFile? path with
    | some content =>
      if !strContains content old_text then
        ("Text not found in " ++ path ++ ": \n\x27" ++ old_text ++ "\x27", fs)
      else
        ("Text updated successfully: " ++ path,
         fs.writeFile path (strReplace content old_text new_text))
    | none =>
      ("Error editing file: [Errno 21] Is a directory: \x27" ++ path ++ "\x27", fs)
  else
    if fs.isDir path then
      ("Error editing file: [Errno 21] Is a directory: \x27" ++ path ++ "\x27", fs)
    else ("Successfully created: " ++ path, fs.writeFile path new_text)

/-- The parsed JSON argument object handed to `_execute_tool` (all declared
parameters are strings). -/
abbrev ToolInput := List (String × String)

/-- `tool_input[k]`: raises `KeyError(k)` when `k` is absent; Python's
`str` of that exception is the quoted key. -/
def getArg (input : ToolInput) (k : String) : Except String String :=
  match dictGet? input k with
  | some v => Except.ok v
  | none => Except.error ("\x27" ++ k ++ "\x27")

/-- The body of `AIAgent._execute_tool` before its `try/except` wrapper: an
`Except.error` models an exception about to be caught by that wrapper. -/
def executeToolExc (fs : FS) (tool_name : String) (tool_input : ToolInput) :
    Except String (String × FS) :=
  if tool_name == "read_file" then do
    let path ← getArg tool_input "path"
    pure (readFile fs path, fs)
  else if tool_name == "list_files" then
    pure (listFiles fs (dictGetD tool_input "path" "."), fs)
  else if tool_name == "edit_file" then do
    let path ← getArg tool_input "path"
    let old_text := dictGetD tool_input "old_text" ""
    let new_text ← getArg tool_input "new_text"
    pure (editFile fs path old_text new_text)
  else pure ("Unknown tool: " ++ tool_name, fs)

/-- `AIAgent._execute_tool`: the body above together with the catch-all
handler turning any exception into an `"Error executing tool:"` result
string. -/
def executeTool (fs : FS) (tool_name : String) (tool_input : ToolInput) :
    String × FS :=
  match executeToolExc fs tool_name tool_input with
  | Except.ok r => r
  | Except.error e => ("Error executing tool: " ++ e, fs)

end Agent

namespace Agent

/-- One entry of `response.tool_calls`: invocation id, function name, and the
raw JSON-encoded argument string. -/
structure ToolCall where
  id : String
  name : String
  arguments : String
deriving Repr, DecidableEq

/-- One entry of `self.messages`. -/
structure Message where
  role : String
  content : String
  tool_call_id : Option String := none
  tool_calls : List ToolCall := []
deriving Repr, DecidableEq

/-- Outcome of one `client.chat.completions.create` call: either the
assistant message (content plus tool calls, an empty list modelling a falsy
`response.tool_calls`), or an exception raised by the transport. -/
inductive GatewayResult where
  | reply (content : String) (tool_calls : List ToolCall)
  | exn (e : String)
deriving Repr, DecidableEq

/-- JSON escaping of one character, as `json.dumps` performs on strings. -/
def jsonEscapeChar (c : Char) : String :=
  if c == '"' then "\\\"" else if c == '\\' then "\\\\"
  else if c == '\n' then "\\n" else if c == '\t' then "\\t"
  else if c == '\r' then "\\r" else String.singleton c

/-- `json.dumps` applied to a tool-result string. -/
def jsonDumpsStr (s : String) : String :=
  "\"" ++ String.join (s.data.map jsonEscapeChar) ++ "\""

/-- The `for tool_call in response.tool_calls` body of `AIAgent.chat`:
resolves the requests in order, returning the exception that escaped the
loop (if any), the tool messages appended (in order), and the resulting file
system.  `pj` is the `json.loads` oracle for argument strings. -/
def resolveCalls (pj : String → Except String ToolInput) :
    List ToolCall → FS → Option String × List Message × FS
  | [], fs => (none, [], fs)
  | c :: rest, fs =>
    match pj c.arguments with
    | Except.error e => (some e, [], fs)
    | Except.ok args =>
      let r := executeTool fs c.name args
      let out := resolveCalls pj rest r.2
      (out.1,
       { role := "tool", content := jsonDumpsStr r.1, tool_call_id := some c.id } :: out.2.1,
       out.2.2)

/-- Result of a terminated `AIAgent.chat` call: the method returns
`response.content` on the no-tool-calls path (`done`) and the
`"[Error]: ..."` string when an exception was caught (`failed`). -/
inductive ChatOutcome where
  | done (text : String)
  | failed (err : String)
deriving Repr, DecidableEq

/-- Observable trace of a (possibly fuel-truncated) run of the `while True`
loop of `AIAgent.chat`: the final outcome (`none` when the fuel ran out with
the loop still going), the conversation, the file system, and the list of
conversation snapshots submitted to the completion gateway, in order. -/
structure ChatTrace where
  result : Option ChatOutcome
  messages : List Message
  fs : FS
  submitted : List (List Message)
deriving Repr, DecidableEq

/-- The assistant message `AIAgent.chat` appends to the conversation for a
gateway reply. -/
def assistantMsg (content : String) (calls : List ToolCall) : Message :=
  { role := "assistant", content := content, tool_calls := calls }

/-- The `while True` loop of `AIAgent.chat`.  `gw` is the completion
gateway (a function of the submitted conversation), `pj` the `json.loads`
oracle.  The loop has no bound in the source; `fuel` merely truncates the
embedding so that it is total. -/
def chatLoop (gw : List Message → GatewayResult)
    (pj : String → Except String ToolInput) :
    Nat → FS → List Message → ChatTrace
  | 0, fs, msgs => { result := none, messages := msgs, fs := fs, submitted := [] }
  | fuel + 1, fs, msgs =>
    match gw msgs with
    | GatewayResult.exn e =>
      { result := some (ChatOutcome.failed ("[Error]: " ++ e)),
        messages := msgs, fs := fs, submitted := [msgs] }
    | GatewayResult.reply content calls =>
      let msgs1 := msgs ++ [assistantMsg content calls]
      if calls.isEmpty then
        { result := some (ChatOutcome.done content),
          messages := msgs1, fs := fs, submitted := [msgs] }
      else
        let out := resolveCalls pj calls fs
        match out.1 with
        | some e =>
          { result := some (ChatOutcome.failed ("[Error]: " ++ e)),
            messages := msgs1 ++ out.2.1, fs := out.2.2, submitted := [msgs] }
        | none =>
          let t := chatLoop gw pj fuel out.2.2 (msgs1 ++ out.2.1)
          { t with submitted := msgs :: t.submitted }

/-- The system message installed by `AIAgent.__init__`. -/
def initialMessages : List Message :=
  [{ role := "system",
     content := "You are a helpful coding assistant operating in a terminal environment. Output only plain text without markdown formatting, as your responses appear directly in the terminal. Be concise but thorough, providing clear and practical advice with a friendly tone. Don\x27t use any asterisk characters in your responses." }]

/-- `AIAgent.chat`: appends the user message and runs the loop. -/
def chat (gw : List Message → GatewayResult)
    (pj : String → Except String ToolInput)
    (fuel : Nat) (fs : FS) (msgs : List Message) (user_input : String) : ChatTrace :=
  chatLoop gw pj fuel fs (msgs ++ [{ role := "user", content := user_input }])

/-- `wfAux expect msgs`: the conversation `msgs` answers tool-invocation
requests correctly, while `expect` lists the requests of the immediately
preceding assistant message that are still awaiting their tool message.
Each pending request must be answered by exactly the next message (a
tool-role message carrying that request's id); a tool-role message may occur
nowhere else. -/
def wfAux : List ToolCall → List Message → Bool
  | expect, [] => expect.isEmpty
  | c :: cs, m :: rest =>
    m.role == "tool" && m.tool_call_id == some c.id && wfAux cs rest
  | [], m :: rest =>
    if m.role == "tool" then false
    else if m.role == "assistant" then wfAux m.tool_calls rest
    else wfAux [] rest

/-- A conversation in which every tool-invocation request of every assistant
message is answered by exactly one tool message with the same invocation id,
immediately after the assistant message and in request order. -/
def wfConv (msgs : List Message) : Bool := wfAux [] msgs

end Agent

namespace Chaining

/-- `EventExtraction` (first-step output shape of the chaining workflow). -/
structure EventExtraction where
  description : String
  is_calendar_event : Bool
  confidence_score : Rat
deriving Repr, DecidableEq

/-- `EventDetails` (second-step output shape). -/
structure EventDetails where
  name : String
  date : String
  duration : Int
  participants : List String
deriving Repr, DecidableEq

/-- `EventConfirmation` (third-step output shape). -/
structure EventConfirmation where
  message : String
  calendar_link : Option String
deriving Repr, DecidableEq

/-- `process_calendar_request`, parameterised by the three LLM extraction
oracles standing for `extract_event_information`, `parse_event_details` and
`generate_confirmation`.  The second component records, in call order, the
names of the step functions the workflow invoked; a step that is not entered
contributes nothing. -/
def process_calendar_request
    (extract_event_information : String → EventExtraction)
    (parse_event_details : String → EventDetails)
    (generate_confirmation : EventDetails → EventConfirmation)
    (user_input : String) : Option EventConfirmation × List String :=
  let initial_extraction := extract_event_information user_input
  if !initial_extraction.is_calendar_event
      || decide (initial_extraction.confidence_score < 7/10) then
    (none, ["extract_event_information"])
  else
    let event_details := parse_event_details initial_extraction.description
    let event_confirmation := generate_confirmation event_details
    (some event_confirmation,
     ["extract_event_information", "parse_event_details", "generate_confirmation"])

end Chaining

namespace Parallelization

/-- `CalendarValidation` (output shape of `validate_calendar_request`). -/
structure CalendarValidation where
  is_calendar_request : Bool
  confidence_score : Rat
deriving Repr, DecidableEq

/-- `SecurityCheck` (output shape of `check_security`). -/
structure SecurityCheck where
  is_safe : Bool
  risk_flags : List String
deriving Repr, DecidableEq

/-- `validate_request`, applied to the pair of branch results delivered by
the `asyncio.gather` join of `validate_calendar_request` and
`check_security`. -/
def validate_request (calendar_check : CalendarValidation)
    (security_check : SecurityCheck) : Bool :=
  calendar_check.is_calendar_request
    && decide (calendar_check.confidence_score > 7/10)
    && security_check.is_safe

end Parallelization

namespace Orchestrator

open PyStr

/-- `SubTask`. -/
structure SubTask where
  section_type : String
  description : String
  style_guide : String
  target_length : Int
deriving Repr, DecidableEq

/-- `OrchestratorPlan`. -/
structure OrchestratorPlan where
  topic_analysis : String
  target_audience : String
  sections : List SubTask
deriving Repr, DecidableEq

/-- `SectionContent`. -/
structure SectionContent where
  content : String
  key_points : List String
deriving Repr, DecidableEq

/-- `SuggestedEdits`. -/
structure SuggestedEdits where
  section_name : String
  suggested_edit : String
deriving Repr, DecidableEq

/-- `ReviewFeedback`. -/
structure ReviewFeedback where
  cohesion_score : Rat
  suggested_edits : List SuggestedEdits
  final_version : String
deriving Repr, DecidableEq

/-- `BlogPost` (the Python field `structure` is a Lean keyword, hence the
trailing underscore). -/
structure BlogPost where
  structure_ : OrchestratorPlan
  sections : List (String × SectionContent)
  review : ReviewFeedback
deriving Repr, DecidableEq

/-- `self.sections_content`: a Python dict from section type to content,
modelled as an insertion-ordered association list. -/
abbrev SectionsContent := List (String × SectionContent)

/-- Python dict assignment `d[k] = v`: overwrite in place, else append. -/
def dictSet (d : SectionsContent) (k : String) (v : SectionContent) :
    SectionsContent :=
  if (d.find? (fun kv => kv.1 == k)).isSome then
    d.map (fun kv => if kv.1 == k then (k, v) else kv)
  else d ++ [(k, v)]

/-- `ORCHESTRATOR_PROMPT.format(...)`. -/
def orchestratorPrompt (topic : String) (target_length : Int) (style : String) :
    String :=
  "\nAnalyze this blog topic and break it down into logical sections.\n\nTopic: "
  ++ topic ++ "\nTarget Length: " ++ toString target_length ++ " words\nStyle: "
  ++ style
  ++ "\n\nReturn your response in this format:\n\n# Analysis\nAnalyze the topic and explain how it should be structured.\nConsider the narrative flow and how sections will work together.\n\n# Target Audience\nDefine the target audience and their interests/needs.\n\n# Sections\n## Section 1\n- Type: section_type\n- Description: what this section should cover\n- Style: writing style guidelines\n\n[Additional sections as needed...]\n"

/-- `WORKER_PROMPT.format(...)`. -/
def workerPrompt (topic section_type description style_guide previous_sections :
    String) : String :=
  "\nWrite a blog section based on:\nTopic: " ++ topic
  ++ "\nSection Type: " ++ section_type
  ++ "\nSection Goal: " ++ description
  ++ "\nStyle Guide: " ++ style_guide
  ++ "\nNote: " ++ previous_sections
  ++ "\n\nReturn your response in this format:\n\n# Content\n[Your section content here, following the style guide]\n\n# Key Points\n- Main point 1\n- Main point 2\n[Additional points as needed...]\n"

/-- `REVIEWER_PROMPT.format(...)`. -/
def reviewerPrompt (topic audience sections : String) : String :=
  "\nReview this blog post for cohesion and flow:\n\nTopic: " ++ topic
  ++ "\nTarget Audience: " ++ audience
  ++ "\n\nSections:\n" ++ sections
  ++ "\n\nProvide a cohesion score between 0.0 and 1.0, suggested edits for each section if needed, and a final polished version of the complete post.\n\nThe cohesion score should reflect how well the sections flow together, with 1.0 being perfect cohesion.\nFor suggested edits, focus on improving transitions and maintaining consistent tone across sections.\nThe final version should incorporate your suggested improvements into a polished, cohesive blog post.\n"

/-- The `previous_sections` string built at the top of
`BlogOrchestrator.write_section` from the current `self.sections_content`. -/
def previousSections (state : SectionsContent) : String :=
  String.intercalate "\n"
    (state.map (fun kv => "=== " ++ kv.1 ++ " ===\n" ++ kv.2.content))

/-- The system prompt `BlogOrchestrator.write_section` submits for a given
accumulated state. -/
def writeSectionPrompt (state : SectionsContent) (topic_name : String)
    (s : SubTask) : String :=
  workerPrompt topic_name s.section_type s.description s.style_guide
    (if !(previousSections state == "") then
      "Previous sections:" ++ previousSections state
     else "This is the first section.")

/-- `BlogOrchestrator.write_section`, with the worker LLM as an oracle over
the submitted system prompt. -/
def write_section (worker : String → SectionContent) (state : SectionsContent)
    (topic_name : String) (s : SubTask) : SectionContent :=
  worker (writeSectionPrompt state topic_name s)

/-- The `for section in plan.sections` loop of `BlogOrchestrator.write_blog`:
returns the updated `sections_content` and the worker prompts submitted, in
order. -/
def writeSectionsLoop (worker : String → SectionContent) (topic_name : String) :
    List SubTask → SectionsContent → SectionsContent × List String
  | [], state => (state, [])
  | s :: rest, state =>
    let section_content := write_section worker state topic_name s
    let state1 := dictSet state s.section_type section_content
    let out := writeSectionsLoop worker topic_name rest state1
    (out.1, writeSectionPrompt state topic_name s :: out.2)

/-- The `sections_text` string built by `BlogOrchestrator.review_blog_post`. -/
def sectionsText (state : SectionsContent) : String :=
  String.intercalate "\n\n"
    (state.map (fun kv => "##" ++ kv.1 ++ "\n" ++ kv.2.content))

/-- `BlogOrchestrator.write_blog`, with the planner, worker and reviewer
LLM calls as oracles over their submitted prompts.  `state` is the
`self.sections_content` of the instance at call time (`[]` right after
`__init__`); the returned triple carries the blog post, the instance state
after the call, and the worker prompts submitted in order. -/
def write_blog (planner : String → OrchestratorPlan)
    (worker : String → SectionContent) (reviewer : String → ReviewFeedback)
    (state : SectionsContent) (topic_name : String)
    (target_length : Int := 1000) (writing_style : String := "informative") :
    BlogPost × SectionsContent × List String :=
  let plan := planner (orchestratorPrompt topic_name target_length writing_style)
  let out := writeSectionsLoop worker topic_name plan.sections state
  let review := reviewer (reviewerPrompt topic_name plan.target_audience (sectionsText out.1))
  ({ structure_ := plan, sections := out.1, review := review }, out.1, out.2)

end Orchestrator

namespace ResearchTools

open PyStr

/-- A result dict with string values, as the search tools return. -/
abbrev Dict := List (String × String)

/-- Python truthiness of an `Optional[str]` (`None` and `""` are falsy). -/
def optTruthy : Option String → Bool
  | none => false
  | some s => !(s == "")

/-- `utils.ensure_pdf_url`. -/
def ensure_pdf_url (abs_or_pdf_url : String) : String :=
  let url := strReplace (strTrim abs_or_pdf_url) "http://" "https://"
  if strContains url "/pdf/" && strEndsWith url ".pdf" then url
  else
    let url := strReplace url "/abs/" "/pdf/"
    if !strEndsWith url ".pdf" then url ++ ".pdf" else url

/-- The `re.sub(r"[ \t]+", " ", s)` pass of `utils.clean_text`; the flag says
whether the previous character was part of a space/tab run. -/
def collapseSpacesAux : Bool → List Char → List Char
  | _, [] => []
  | prevSp, c :: rest =>
    if c == ' ' || c == '\t' then
      if prevSp then collapseSpacesAux true rest
      else ' ' :: collapseSpacesAux true rest
    else c :: collapseSpacesAux false rest

/-- The `re.sub(r"\n{3,}", "\n\n", s)` pass of `utils.clean_text`; the
counter is the number of newlines of the current run already kept. -/
def squeezeNlAux : Nat → List Char → List Char
  | _, [] => []
  | k, c :: rest =>
    if c == '\n' then
      if 2 ≤ k then squeezeNlAux k rest
      else '\n' :: squeezeNlAux (k + 1) rest
    else c :: squeezeNlAux 0 rest

/-- `utils.clean_text`: the two `\r` regexes are the two sequential
replacements. -/
def clean_text (s : String) : String :=
  let s1 := strReplace s "-\n" ""
  let s2 := strReplace (strReplace s1 "\r\n" "\n") "\r" "\n"
  let s3 : String := ⟨collapseSpacesAux false s2.data⟩
  let s4 : String := ⟨squeezeNlAux 0 s3.data⟩
  strTrim s4

/-- `sum(ch.isalpha() for ch in snippet)` (ASCII letters in this model). -/
def countAlpha (l : List Char) : Nat := (l.filter Char.isAlpha).length

/-- `snippet.count(" ")`. -/
def countSpace (l : List Char) : Nat := (l.filter (fun c => c == ' ')).length

/-- `max((len(tok) for tok in snippet.split()), default=0)`; `cur` is the
length of the token being scanned, `best` the maximum so far. -/
def longestTokenLen : Nat → Nat → List Char → Nat
  | cur, best, [] => max best cur
  | cur, best, c :: rest =>
    if c.isWhitespace then longestTokenLen 0 (max best cur) rest
    else longestTokenLen (cur + 1) best rest

/-- The `looks_unreadable` heuristic of `arxiv_search_tool`
(`spaces / max(1, letters) < 0.03` computed exactly over `Rat`). -/
def looksUnreadable (letters spaces longest_token : Nat) : Bool :=
  decide (120 < letters)
    && decide ((spaces : Rat) / ((max 1 letters : Nat) : Rat) < 3 / 100)
    && decide (80 < longest_token)

/-- The intern flags of `arxiv_search_tool` (literal constants in the
source). -/
def _INCLUDE_PDF : Bool := true

/-- See `_INCLUDE_PDF`. -/
def _EXTRACT_TEXT : Bool := true

/-- See `_INCLUDE_PDF`. -/
def _SAVE_FULL_TEXT : Bool := false

/-- Outcome of the PDF pipeline for one entry: truthiness of the bytes
`fetch_pdf_bytes` returned, and the `pdf_bytes_to_text` outcome. -/
structure ArxivPdf where
  nonempty : Bool
  text : Except String String
deriving Repr

/-- The fields `arxiv_search_tool` reads from one parsed `<entry>` element,
with the per-entry `fetch_pdf_bytes` outcome as an oracle. -/
structure ArxivEntryData where
  title : String
  published : String
  id : String
  summary : String
  authors : List String
  pdf_href : Option String
  pdf : Except String ArxivPdf
deriving Repr

/-- The dict `arxiv_search_tool` builds for one entry (optional keys are
`none` when absent). -/
structure ArxivItem where
  title : String
  authors : List String
  published : String
  url : String
  summary : String
  link_pdf : Option String
  pdf_error : Option String := none
  pdf_text : Option String := none
  pdf_text_excerpt : Option String := none
  pdf_text_warning : Option String := none
  text_error : Option String := none
deriving Repr, DecidableEq

/-- An element of the list `arxiv_search_tool` returns: an entry dict or the
single `{"error": ...}` dict. -/
inductive ArxivOut where
  | entry (item : ArxivItem)
  | err (e : String)
deriving Repr, DecidableEq

/-- The `for entry in root.findall(...)` body of `arxiv_search_tool`. -/
def processEntry (e : ArxivEntryData) : ArxivItem :=
  let title := strTrim e.title
  let published := strTake e.published 10
  let url_abs := e.id
  let abstract_summary := strTrim e.summary
  let authors := e.authors.filter (fun nm => !(nm == ""))
  let link_pdf :=
    if !optTruthy e.pdf_href && !(url_abs == "") then some (ensure_pdf_url url_abs)
    else e.pdf_href
  let item0 : ArxivItem :=
    { title := title, authors := authors, published := published,
      url := url_abs, summary := abstract_summary, link_pdf := link_pdf }
  if (_INCLUDE_PDF || _EXTRACT_TEXT) && optTruthy link_pdf then
    match e.pdf with
    | Except.error err => { item0 with pdf_error := some ("PDF fetch failed: " ++ err) }
    | Except.ok pdf =>
      if _EXTRACT_TEXT && pdf.nonempty then
        match pdf.text with
        | Except.error err =>
          { item0 with text_error := some ("Text extraction failed: " ++ err) }
        | Except.ok t =>
          let text := if !(t == "") then clean_text t else ""
          if !(text == "") then
            if _SAVE_FULL_TEXT then { item0 with pdf_text := some text }
            else
              let snippet := strTrim (strTake text 5000)
              let letters := countAlpha snippet.data
              let spaces := countSpace snippet.data
              let longest_token := longestTokenLen 0 0 snippet.data
              if looksUnreadable letters spaces longest_token then
                { item0 with
                  pdf_text_excerpt := some abstract_summary,
                  pdf_text_warning :=
                    some "Extracted PDF text looked unreadable; using abstract." }
              else { item0 with pdf_text_excerpt := some snippet }
          else item0
      else item0
  else item0

/-- The remote side of `arxiv_search_tool`: `requests.utils.quote` and the
`session.get`/`raise_for_status` call.  The outer `Except` is a
`requests.exceptions.RequestException`; the inner one is the
`ET.ParseError` of `ET.fromstring`, with the successful parse delivering the
entry fields the code extracts. -/
structure ArxivUpstream where
  quote : String → String
  get : String → Except String (Except String (List ArxivEntryData))

/-- The `api_url` string built by `arxiv_search_tool`. -/
def arxivApiUrl (up : ArxivUpstream) (query : String) (max_results : Int) : String :=
  "https://export.arxiv.org/api/query?search_query=all:" ++ up.quote query
  ++ "&start=0&max_results=" ++ toString max_results

/-- `arxiv_search_tool`.  Total: every upstream failure is returned as a
single-element error result. -/
def arxiv_search_tool (up : ArxivUpstream) (query : String)
    (max_results : Int := 3) : List ArxivOut :=
  match up.get (arxivApiUrl up query max_results) with
  | Except.error e => [ArxivOut.err ("arXiv API request failed: " ++ e)]
  | Except.ok parsed =>
    match parsed with
    | Except.error e => [ArxivOut.err ("arXiv API XML parse failed: " ++ e)]
    | Except.ok entries => entries.map (fun e => ArxivOut.entry (processEntry e))

/-- The response shape of `TavilyClient.search`. -/
structure TavilyResponse where
  results : List Dict
  images : List String
deriving Repr, DecidableEq

/-- `tavily_search_tool`.  `env` models `os.getenv`; `search` models the
`client.search` call (its `Except.error` is any exception the client
raises).  The result `Except.error` models the `ValueError` the function
itself raises, outside its `try` block, when the API key is missing. -/
def tavily_search_tool (env : String → Option String)
    (search : String → Int → Bool → Except String TavilyResponse)
    (query : String) (max_results : Int := 5) (include_images : Bool := false) :
    Except String (List Dict) :=
  let api_key := env "TAVILY_API_KEY"
  if !optTruthy api_key then
    Except.error "TAVILY_API_KEY not found in environment variables."
  else
    match search query max_results include_images with
    | Except.error e => Except.ok [[("error", e)]]
    | Except.ok response =>
      let results := response.results.map (fun r =>
        [("title", dictGetD r "title" ""), ("content", dictGetD r "content" ""),
         ("url", dictGetD r "url" "")])
      let results :=
        if include_images then
          results ++ response.images.map (fun img_url => [("image_url", img_url)])
        else results
      Except.ok results

/-- The page data `wikipedia_search_tool` reads. -/
structure WikiPage where
  title : String
  url : String
deriving Repr, DecidableEq

/-- The `wikipedia` library calls used by `wikipedia_search_tool`, as
oracles; each `Except.error` is an exception raised by that call. -/
structure WikiOracle where
  search : String → Except String (List String)
  page : String → Except String WikiPage
  summary : String → Int → Except String String

/-- `wikipedia_search_tool`.  Total: the catch-all handler turns every
failure (including the `IndexError` of `wikipedia.search(query)[0]` on an
empty result list) into a single-element error result. -/
def wikipedia_search_tool (w : WikiOracle) (query : String)
    (sentences : Int := 5) : List Dict :=
  let body : Except String Dict := do
    let titles ← w.search query
    let page_title ← match titles with
      | [] => Except.error "list index out of range"
      | t :: _ => Except.ok t
    let page ← w.page page_title
    let summary ← w.summary page_title sentences
    Except.ok [("title", page.title), ("summary", summary), ("url", page.url)]
  match body with
  | Except.ok item => [item]
  | Except.error e => [[("error", e)]]

end ResearchTools

namespace PyStr

/-- Replace only the FIRST found occurrence of `pat`.  This is the operation
the specification's words describe (`an exact substring replace-once-found
operation`, `exactly one found occurrence ... is replaced`); it is compared
against the `strReplace` the source actually performs. -/
def listReplaceFirst (pat rep : List Char) : List Char → List Char
  | [] => []
  | c :: rest =>
    match listDropPre pat (c :: rest) with
    | some remaining => rep ++ remaining
    | none => c :: listReplaceFirst pat rep rest

/-- String version of `listReplaceFirst`. -/
def strReplaceFirst (s pat rep : String) : String :=
  ⟨listReplaceFirst pat.data rep.data s.data⟩

end PyStr

namespace Agent

/-- Is this gateway outcome an assistant reply carrying tool-invocation
requests? -/
def isToolReply : GatewayResult → Bool
  | GatewayResult.reply _ calls => !calls.isEmpty
  | GatewayResult.exn _ => false

/-- A gateway that requests a tool on the first two turns and then produces
a final reply (concrete witness input). -/
def gwW (conv : List Message) : GatewayResult :=
  if conv.length ≤ 3 then
    GatewayResult.reply "" [{ id := "call_1", name := "read_file", arguments := "" }]
  else GatewayResult.reply "All done." []

/-- A gateway that requests a tool on every turn: the model perpetually
requesting tools. -/
def gwAlwaysTool (_ : List Message) : GatewayResult :=
  GatewayResult.reply "" [{ id := "call_1", name := "read_file", arguments := "" }]

/-- A `json.loads` oracle that always parses to the same argument object. -/
def pjW (_ : String) : Except String ToolInput := Except.ok [("path", "a.txt")]

/-- A small concrete file system. -/
def fsW : FS := { files := [("a.txt", "hello")], dirs := [] }

end Agent

namespace Orchestrator

/-- Concrete planner oracle: one `intro` section (counterexample input). -/
def plannerX (_ : String) : OrchestratorPlan :=
  { topic_analysis := "ta", target_audience := "aud",
    sections := [{ section_type := "intro", description := "d",
                   style_guide := "sg", target_length := 100 }] }

/-- Concrete worker oracle. -/
def workerX (_ : String) : SectionContent :=
  { content := "CONTENT1", key_points := [] }

/-- Concrete reviewer oracle. -/
def reviewerX (_ : String) : ReviewFeedback :=
  { cohesion_score := 1, suggested_edits := [], final_version := "fv" }

/-- A first `write_blog` run on a fresh `BlogOrchestrator` instance
(`sections_content = []` after `__init__`). -/
def runOne : BlogPost × SectionsContent × List String :=
  write_blog plannerX workerX reviewerX [] "T" 1000 "informative"

/-- The second `write_blog` run on the same instance, whose
`sections_content` is whatever the first run left behind. -/
def runTwo : BlogPost × SectionsContent × List String :=
  write_blog plannerX workerX reviewerX runOne.2.1 "T" 1000 "informative"

end Orchestrator

namespace ResearchTools

/-- An environment with no variables set (no `TAVILY_API_KEY`). -/
def envEmpty (_ : String) : Option String := none

/-- An environment that provides the Tavily API key. -/
def envWithKey (k : String) : Option String :=
  if k == "TAVILY_API_KEY" then some "sk-test" else none

/-- A `client.search` oracle that succeeds with an empty response. -/
def searchOk (_ : String) (_ : Int) (_ : Bool) : Except String TavilyResponse :=
  Except.ok { results := [], images := [] }

/-- A `client.search` oracle that raises. -/
def searchFail (_ : String) (_ : Int) (_ : Bool) : Except String TavilyResponse :=
  Except.error "HTTPError: 502 Bad Gateway"

/-- An arXiv upstream whose HTTP request fails. -/
def arxivGetFail : ArxivUpstream :=
  { quote := fun q => q, get := fun _ => Except.error "connection refused" }

/-- An arXiv upstream whose response fails to parse as XML. -/
def arxivParseFail : ArxivUpstream :=
  { quote := fun q => q, get := fun _ => Except.ok (Except.error "syntax error") }

/-- A Wikipedia oracle whose search finds no page. -/
def wikiNoResult : WikiOracle :=
  { search := fun _ => Except.ok [],
    page := fun t => Except.ok { title := t, url := "u" },
    summary := fun _ _ => Except.ok "s" }

/-- A Wikipedia oracle whose page lookup raises. -/
def wikiPageFail : WikiOracle :=
  { search := fun _ => Except.ok ["Multi-agent system"],
    page := fun _ => Except.error "PageError: missing page",
    summary := fun _ _ => Except.ok "s" }

end ResearchTools

namespace Agent

open PyStr

lemma isFile_of_readFile? {fs : FS} {p : String} {c : String}
    (h : fs.readFile? p = some c) : fs.isFile p = true := by
  unfold FS.readFile? at h
  unfold FS.isFile
  cases hf : fs.files.find? (fun kv => kv.1 == p) with
  | none => rw [hf] at h; simp at h
  | some kv => rfl

lemma find?_overwrite (l : List (String × String)) (p c : String)
    (h : (l.find? (fun kv => kv.1 == p)).isSome = true) :
    (l.map (fun kv => if kv.1 == p then (p, c) else kv)).find?
      (fun kv => kv.1 == p) = some (p, c) := by
  induction l with
  | nil => simp at h
  | cons kv t ih =>
    simp only [List.map_cons]
    cases hk : kv.1 == p with
    | true =>
      rw [if_pos rfl]
      exact List.find?_cons_of_pos _ (by simp)
    | false =>
      rw [List.find?_cons_of_neg _ (by simp [hk])] at h
      rw [if_neg (by simp)]
      rw [List.find?_cons_of_neg _ (by simp [hk])]
      exact ih h

lemma find?_append_single (l : List (String × String)) (p c : String)
    (h : l.find? (fun kv => kv.1 == p) = none) :
    (l ++ [(p, c)]).find? (fun kv => kv.1 == p) = some (p, c) := by
  rw [List.find?_append, h]
  simp [List.find?_cons]

lemma readFile?_writeFile (fs : FS) (p c : String) :
    (fs.writeFile p c).readFile? p = some c := by
  unfold FS.writeFile FS.readFile? FS.isFile
  by_cases hf : (fs.files.find? (fun kv => kv.1 == p)).isSome = true
  · simp only [hf, if_true]
    rw [find?_overwrite fs.files p c hf]
    rfl
  · have hn : fs.files.find? (fun kv => kv.1 == p) = none := by
      cases hq : fs.files.find? (fun kv => kv.1 == p) with
      | none => rfl
      | some kv => rw [hq] at hf; simp at hf
    simp only [hf, if_false, Bool.false_eq_true]
    rw [find?_append_single fs.files p c hn]
    rfl

lemma editFile_replace_eq {fs : FS} {path old_text new_text content : String}
    (hf : fs.readFile? path = some content) (hne : old_text ≠ "")
    (hc : strContains content old_text = true) :
    editFile fs path old_text new_text =
      ("Text updated successfully: " ++ path,
       fs.writeFile path (strReplace content old_text new_text)) := by
  have hfile := isFile_of_readFile? hf
  have hne' : (old_text == "") = false := beq_eq_false_iff_ne.mpr hne
  simp [editFile, FS.pathExists, hfile, hne', hf, hc]

/-- Claim C7 (amended): for every existing file whose content contains the
non-empty `old_text`, `edit_file` replaces EVERY occurrence of `old_text`
with `new_text` (Python `str.replace` semantics) and reports success. -/
theorem edit_file_replaces_every_occurrence
    (fs : FS) (path old_text new_text content : String)
    (hf : fs.readFile? path = some content) (hne : old_text ≠ "")
    (hc : strContains content old_text = true) :
    editFile fs path old_text new_text =
      ("Text updated successfully: " ++ path,
       fs.writeFile path (strReplace content old_text new_text)) :=
  editFile_replace_eq hf hne hc

/-- Witness for `edit_file_replaces_every_occurrence` at a concrete file. -/
theorem edit_file_replaces_every_occurrence_witness :
    editFile { files := [("a.txt", "hello")], dirs := [] } "a.txt" "ell" "ipp" =
      ("Text updated successfully: a.txt",
       FS.writeFile { files := [("a.txt", "hello")], dirs := [] } "a.txt"
         (strReplace "hello" "ell" "ipp")) :=
  edit_file_replaces_every_occurrence
    { files := [("a.txt", "hello")], dirs := [] } "a.txt" "ell" "ipp" "hello"
    rfl (by decide) (by decide)

/-- Counterexample to claim C7 as stated: on the file content `"abab"` with
`old_text = "ab"`, the code replaces BOTH occurrences (result `"XX"`),
whereas replacing exactly one found occurrence would give `"Xab"`. -/
theorem edit_file_replace_once_counterexample :
    editFile { files := [("notes.txt", "abab")], dirs := [] } "notes.txt" "ab" "X" =
      ("Text updated successfully: notes.txt",
       { files := [("notes.txt", "XX")], dirs := [] }) ∧
    strReplaceFirst "abab" "ab" "X" = "Xab" ∧
    ("XX" : String) ≠ "Xab" := by
  refine ⟨by decide, by decide, by decide⟩

/-- Claim C8: for every existing file and non-empty `old_text` that does not
occur in the content, `edit_file` reports a not-found error and leaves the
file system unchanged. -/
theorem edit_file_not_found_leaves_file_unchanged
    (fs : FS) (path old_text new_text content : String)
    (hf : fs.readFile? path = some content) (hne : old_text ≠ "")
    (hc : strContains content old_text = false) :
    editFile fs path old_text new_text =
      ("Text not found in " ++ path ++ ": \n\x27" ++ old_text ++ "\x27", fs) := by
  have hfile := isFile_of_readFile? hf
  have hne' : (old_text == "") = false := beq_eq_false_iff_ne.mpr hne
  simp [editFile, FS.pathExists, hfile, hne', hf, hc]

/-- Witness for `edit_file_not_found_leaves_file_unchanged`. -/
theorem edit_file_not_found_leaves_file_unchanged_witness :
    editFile { files := [("new.txt", "world")], dirs := [] } "new.txt" "missing" "x" =
      ("Text not found in new.txt: \n\x27missing\x27",
       { files := [("new.txt", "world")], dirs := [] }) :=
  edit_file_not_found_leaves_file_unchanged
    { files := [("new.txt", "world")], dirs := [] } "new.txt" "missing" "x" "world"
    rfl (by decide) (by decide)

/-- Claim C10: with an empty (or omitted, hence defaulted-to-empty)
`old_text`, `edit_file` on an EXISTING file takes the creation branch: the
whole content is overwritten with `new_text` and the call reports successful
creation — both for a direct call and through the `_execute_tool`
dispatcher with `old_text` absent from the argument payload. -/
theorem edit_file_empty_old_overwrites_existing
    (fs : FS) (path new_text content : String)
    (_hf : fs.readFile? path = some content) (hd : fs.isDir path = false) :
    editFile fs path "" new_text =
      ("Successfully created: " ++ path, fs.writeFile path new_text) ∧
    (fs.writeFile path new_text).readFile? path = some new_text ∧
    (∀ input : ToolInput, dictGet? input "path" = some path →
      dictGet? input "old_text" = none →
      dictGet? input "new_text" = some new_text →
      executeTool fs "edit_file" input =
        ("Successfully created: " ++ path, fs.writeFile path new_text)) := by
  have h1 : editFile fs path "" new_text =
      ("Successfully created: " ++ path, fs.writeFile path new_text) := by
    simp [editFile, hd]
  refine ⟨h1, readFile?_writeFile fs path new_text, ?_⟩
  intro input hp ho hn
  simp [executeTool, executeToolExc, getArg, dictGetD, hp, ho, hn,
    Bind.bind, Except.bind, pure, Except.pure, h1]

/-- Witness for `edit_file_empty_old_overwrites_existing`: `hello.txt`
already exists with content `"hello"` and is overwritten with `"world"`. -/
theorem edit_file_empty_old_overwrites_existing_witness :
    editFile { files := [("hello.txt", "hello")], dirs := [] } "hello.txt" "" "world" =
      ("Successfully created: hello.txt",
       FS.writeFile { files := [("hello.txt", "hello")], dirs := [] } "hello.txt" "world") ∧
    (FS.writeFile { files := [("hello.txt", "hello")], dirs := [] } "hello.txt"
        "world").readFile? "hello.txt" = some "world" ∧
    executeTool { files := [("hello.txt", "hello")], dirs := [] } "edit_file"
        [("path", "hello.txt"), ("new_text", "world")] =
      ("Successfully created: hello.txt",
       FS.writeFile { files := [("hello.txt", "hello")], dirs := [] } "hello.txt" "world") := by
  have h := edit_file_empty_old_overwrites_existing
    { files := [("hello.txt", "hello")], dirs := [] } "hello.txt" "world" "hello"
    rfl rfl
  exact ⟨h.1, h.2.1, h.2.2 [("path", "hello.txt"), ("new_text", "world")] rfl rfl rfl⟩

/-- Claim C3: the tool dispatcher always returns a result string: every
exception of the body is captured as an `"Error executing tool:"` result, an
unknown tool name yields an `"Unknown tool:"` result, a missing `path`
argument yields the captured `KeyError`, and an I/O failure (file not found)
is reported inside the result string.  The total type of `executeTool`
is the never-raises guarantee itself. -/
theorem tool_dispatch_captures_failures
    (fs : FS) (tool_name : String) (tool_input : ToolInput) :
    (∀ e, executeToolExc fs tool_name tool_input = Except.error e →
      executeTool fs tool_name tool_input = ("Error executing tool: " ++ e, fs)) ∧
    (tool_name ≠ "read_file" → tool_name ≠ "list_files" → tool_name ≠ "edit_file" →
      executeTool fs tool_name tool_input = ("Unknown tool: " ++ tool_name, fs)) ∧
    (∀ p, tool_name = "read_file" → dictGet? tool_input "path" = some p →
      fs.readFile? p = none → fs.isDir p = false →
      executeTool fs tool_name tool_input = ("File not found: " ++ p, fs)) ∧
    (tool_name = "read_file" → dictGet? tool_input "path" = none →
      executeTool fs tool_name tool_input = ("Error executing tool: \x27path\x27", fs)) := by
  refine ⟨?_, ?_, ?_, ?_⟩
  · intro e h
    unfold executeTool
    rw [h]
  · intro h1 h2 h3
    have b1 : (tool_name == "read_file") = false := beq_eq_false_iff_ne.mpr h1
    have b2 : (tool_name == "list_files") = false := beq_eq_false_iff_ne.mpr h2
    have b3 : (tool_name == "edit_file") = false := beq_eq_false_iff_ne.mpr h3
    simp [executeTool, executeToolExc, b1, b2, b3, pure, Except.pure]
  · intro p h1 h2 h3 h4
    subst h1
    simp [executeTool, executeToolExc, getArg, h2, readFile, h3, h4,
      Bind.bind, Except.bind, pure, Except.pure]
  · intro h1 h2
    subst h1
    simp [executeTool, executeToolExc, getArg, h2, Bind.bind, Except.bind]

/-- Witness for `tool_dispatch_captures_failures`. -/
theorem tool_dispatch_captures_failures_witness :
    executeTool fsW "frobnicate" [] = ("Unknown tool: frobnicate", fsW) ∧
    executeTool fsW "read_file" [] = ("Error executing tool: \x27path\x27", fsW) ∧
    executeTool fsW "read_file" [("path", "missing.txt")] =
      ("File not found: missing.txt", fsW) :=
  ⟨(tool_dispatch_captures_failures fsW "frobnicate" []).2.1
      (by decide) (by decide) (by decide),
   (tool_dispatch_captures_failures fsW "read_file" []).2.2.2 rfl rfl,
   (tool_dispatch_captures_failures fsW "read_file" [("path", "missing.txt")]).2.2.1
      "missing.txt" rfl rfl rfl rfl⟩

end Agent

namespace Chaining

/-- Claim C4: when the first extraction reports a non-event or a confidence
below `0.7`, `process_calendar_request` halts with the rejected outcome
`none` (not an error) and the downstream steps `parse_event_details` and
`generate_confirmation` are invoked zero times. -/
theorem gate_failure_halts_chain
    (extract : String → EventExtraction) (pa : String → EventDetails)
    (ge : EventDetails → EventConfirmation) (user_input : String)
    (h : (extract user_input).is_calendar_event = false ∨
         (extract user_input).confidence_score < 7/10) :
    (process_calendar_request extract pa ge user_input).1 = none ∧
    (process_calendar_request extract pa ge user_input).2.count
      "parse_event_details" = 0 ∧
    (process_calendar_request extract pa ge user_input).2.count
      "generate_confirmation" = 0 ∧
    (∀ pa2 ge2, process_calendar_request extract pa ge user_input =
      process_calendar_request extract pa2 ge2 user_input) := by
  have hcond : (!(extract user_input).is_calendar_event
      || decide ((extract user_input).confidence_score < 7/10)) = true := by
    rcases h with h | h
    · rw [h]; rfl
    · simp [h]
  refine ⟨?_, ?_, ?_, ?_⟩ <;>
    simp [process_calendar_request, hcond, List.count_cons]

/-- Witness for `gate_failure_halts_chain` with confidence `0.65 < 0.7`. -/
theorem gate_failure_halts_chain_witness :
    (process_calendar_request
        (fun _ => { description := "d", is_calendar_event := true,
                    confidence_score := 13/20 })
        (fun _ => { name := "n", date := "", duration := 60, participants := [] })
        (fun _ => { message := "m", calendar_link := none }) "hi").1 = none ∧
    (process_calendar_request
        (fun _ => { description := "d", is_calendar_event := true,
                    confidence_score := 13/20 })
        (fun _ => { name := "n", date := "", duration := 60, participants := [] })
        (fun _ => { message := "m", calendar_link := none }) "hi").2.count
      "parse_event_details" = 0 :=
  have h := gate_failure_halts_chain
    (fun _ => { description := "d", is_calendar_event := true,
                confidence_score := 13/20 })
    (fun _ => { name := "n", date := "", duration := 60, participants := [] })
    (fun _ => { message := "m", calendar_link := none }) "hi"
    (Or.inr (by norm_num))
  ⟨h.1, h.2.1⟩

end Chaining

namespace Parallelization

/-- Claim C5: the parallel-validation verdict is the conjunction of the
branch verdicts: `validate_request` is true exactly when the calendar branch
passes (`is_calendar_request` with confidence above `0.7`) and the security
branch passes (`is_safe`); each failing branch alone forces an invalid
verdict. -/
theorem validate_request_and_semantics
    (calendar_check : CalendarValidation) (security_check : SecurityCheck) :
    (validate_request calendar_check security_check = true ↔
      (calendar_check.is_calendar_request = true ∧
       calendar_check.confidence_score > 7/10 ∧
       security_check.is_safe = true)) ∧
    (security_check.is_safe = false →
      validate_request calendar_check security_check = false) ∧
    (calendar_check.is_calendar_request = false →
      validate_request calendar_check security_check = false) ∧
    (¬ calendar_check.confidence_score > 7/10 →
      validate_request calendar_check security_check = false) := by
  refine ⟨?_, ?_, ?_, ?_⟩
  · simp [validate_request, Bool.and_eq_true, and_assoc]
  · intro h; simp [validate_request, h]
  · intro h; simp [validate_request, h]
  · intro h; simp [validate_request, h]

/-- Witness for `validate_request_and_semantics`: branch A passes, branch B
fails, overall invalid. -/
theorem validate_request_and_semantics_witness :
    validate_request
      { is_calendar_request := true, confidence_score := 9/10 }
      { is_safe := false, risk_flags := ["prompt_injection"] } = false :=
  (validate_request_and_semantics
      { is_calendar_request := true, confidence_score := 9/10 }
      { is_safe := false, risk_flags := ["prompt_injection"] }).2.1 rfl

end Parallelization

namespace Orchestrator

/-- Claim C9 (amended): `sections_content` persists on the orchestrator
instance across `write_blog` calls — a run starts from whatever the instance
has accumulated, and only a run whose starting state is empty (a fresh
instance) hands the first planned section's worker the
`"This is the first section."` context. -/
theorem orchestrator_first_section_context
    (planner : String → OrchestratorPlan) (worker : String → SectionContent)
    (reviewer : String → ReviewFeedback) (state : SectionsContent)
    (topic : String) (tl : Int) (ws : String) (s : SubTask) (rest : List SubTask)
    (hplan : (planner (orchestratorPrompt topic tl ws)).sections = s :: rest) :
    ((write_blog planner worker reviewer state topic tl ws).2.2.head? =
      some (writeSectionPrompt state topic s)) ∧
    (state = [] →
      (write_blog planner worker reviewer state topic tl ws).2.2.head? =
        some (workerPrompt topic s.section_type s.description s.style_guide
          "This is the first section.")) := by
  constructor
  · simp [write_blog, hplan, writeSectionsLoop]
  · intro hstate
    subst hstate
    simp [write_blog, hplan, writeSectionsLoop, writeSectionPrompt,
      previousSections, String.intercalate]

/-- Witness for `orchestrator_first_section_context` on a fresh instance. -/
theorem orchestrator_first_section_context_witness :
    (write_blog plannerX workerX reviewerX [] "T" 1000 "informative").2.2.head? =
      some (workerPrompt "T" "intro" "d" "sg" "This is the first section.") :=
  (orchestrator_first_section_context plannerX workerX reviewerX [] "T" 1000
      "informative"
      { section_type := "intro", description := "d", style_guide := "sg",
        target_length := 100 } [] rfl).2 rfl

set_option maxRecDepth 8192 in
/-- Counterexample to claim C9 as stated: on the SAME `BlogOrchestrator`
instance, a second `write_blog` run does NOT start with an empty
`sections_content`; its first worker receives the previous run's section as
`"Previous sections:..."` context instead of the first-section context. -/
theorem orchestrator_fresh_state_counterexample :
    runTwo.2.2 =
      [workerPrompt "T" "intro" "d" "sg"
        "Previous sections:=== intro ===\nCONTENT1"] ∧
    workerPrompt "T" "intro" "d" "sg" "Previous sections:=== intro ===\nCONTENT1" ≠
      workerPrompt "T" "intro" "d" "sg" "This is the first section." := by
  refine ⟨by decide, by decide⟩

end Orchestrator

namespace ResearchTools

/-- Claim C6 (amended): each research tool reports upstream failures as a
single-element error result — with one exception: `tavily_search_tool`
RAISES a `ValueError` when the API key is missing (that check sits outside
its `try` block).  With the key present, tavily never raises and maps a
search failure to the single-element error list; `arxiv_search_tool` and
`wikipedia_search_tool` are total (never raise) and map each of their
upstream failures — HTTP error, XML parse error, missing page, failing page
or summary lookup — to the single-element error list. -/
theorem research_tools_report_failures
    (env : String → Option String)
    (search : String → Int → Bool → Except String TavilyResponse)
    (up : ArxivUpstream) (w : WikiOracle)
    (query : String) (mr : Int) (ii : Bool) (n : Int) :
    (optTruthy (env "TAVILY_API_KEY") = true →
      (∀ e, search query mr ii = Except.error e →
        tavily_search_tool env search query mr ii = Except.ok [[("error", e)]]) ∧
      ∃ l, tavily_search_tool env search query mr ii = Except.ok l) ∧
    (∀ e, up.get (arxivApiUrl up query mr) = Except.error e →
      arxiv_search_tool up query mr =
        [ArxivOut.err ("arXiv API request failed: " ++ e)]) ∧
    (∀ e, up.get (arxivApiUrl up query mr) = Except.ok (Except.error e) →
      arxiv_search_tool up query mr =
        [ArxivOut.err ("arXiv API XML parse failed: " ++ e)]) ∧
    (∀ e, w.search query = Except.error e →
      wikipedia_search_tool w query n = [[("error", e)]]) ∧
    (w.search query = Except.ok [] →
      wikipedia_search_tool w query n =
        [[("error", "list index out of range")]]) ∧
    (∀ t ts e, w.search query = Except.ok (t :: ts) → w.page t = Except.error e →
      wikipedia_search_tool w query n = [[("error", e)]]) ∧
    (∀ t ts p e, w.search query = Except.ok (t :: ts) → w.page t = Except.ok p →
      w.summary t n = Except.error e →
      wikipedia_search_tool w query n = [[("error", e)]]) := by
  refine ⟨?_, ?_, ?_, ?_, ?_, ?_, ?_⟩
  · intro hkey
    constructor
    · intro e he
      simp [tavily_search_tool, hkey, he]
    · simp only [tavily_search_tool, hkey, Bool.not_true, Bool.false_eq_true,
        if_false]
      cases hs : search query mr ii with
      | error e => exact ⟨_, rfl⟩
      | ok resp => exact ⟨_, rfl⟩
  · intro e he
    simp [arxiv_search_tool, he]
  · intro e he
    simp [arxiv_search_tool, he]
  · intro e he
    simp [wikipedia_search_tool, he, Bind.bind, Except.bind]
  · intro he
    simp [wikipedia_search_tool, he, Bind.bind, Except.bind]
  · intro t ts e h1 h2
    simp [wikipedia_search_tool, h1, h2, Bind.bind, Except.bind]
  · intro t ts p e h1 h2 h3
    simp [wikipedia_search_tool, h1, h2, h3, Bind.bind, Except.bind]

/-- Witness for `research_tools_report_failures` at concrete failing
oracles for each tool. -/
theorem research_tools_report_failures_witness :
    tavily_search_tool envWithKey searchFail "q" 5 false =
      Except.ok [[("error", "HTTPError: 502 Bad Gateway")]] ∧
    arxiv_search_tool arxivGetFail "q" 3 =
      [ArxivOut.err ("arXiv API request failed: " ++ "connection refused")] ∧
    arxiv_search_tool arxivParseFail "q" 3 =
      [ArxivOut.err ("arXiv API XML parse failed: " ++ "syntax error")] ∧
    wikipedia_search_tool wikiNoResult "q" 5 =
      [[("error", "list index out of range")]] ∧
    wikipedia_search_tool wikiPageFail "q" 5 =
      [[("error", "PageError: missing page")]] :=
  ⟨((research_tools_report_failures envWithKey searchFail arxivGetFail
        wikiNoResult "q" 5 false 5).1 rfl).1 "HTTPError: 502 Bad Gateway" rfl,
   (research_tools_report_failures envWithKey searchFail arxivGetFail
        wikiNoResult "q" 5 false 5).2.1 "connection refused" rfl,
   (research_tools_report_failures envWithKey searchFail arxivParseFail
        wikiNoResult "q" 5 false 5).2.2.1 "syntax error" rfl,
   (research_tools_report_failures envWithKey searchFail arxivParseFail
        wikiNoResult "q" 5 false 5).2.2.2.2.1 rfl,
   (research_tools_report_failures envWithKey searchFail arxivParseFail
        wikiPageFail "q" 5 false 5).2.2.2.2.2.1 "Multi-agent system" []
        "PageError: missing page" rfl rfl⟩

/-- Counterexample to claim C6 as stated: with `TAVILY_API_KEY` unset,
`tavily_search_tool` raises `ValueError` to the caller (modelled as the
escaping `Except.error`) instead of returning a single-element error
list. -/
theorem tavily_missing_key_raises_counterexample :
    tavily_search_tool envEmpty searchOk "multi-agent systems" 5 false =
      Except.error "TAVILY_API_KEY not found in environment variables." := rfl

end ResearchTools

namespace Agent

lemma wfAux_append {expect : List ToolCall} {xs : List Message}
    (ys : List Message) (h : wfAux expect xs = true) :
    wfAux expect (xs ++ ys) = wfAux [] ys := by
  induction xs generalizing expect with
  | nil =>
    cases expect with
    | nil => simp
    | cons c cs => simp [wfAux] at h
  | cons m rest ih =>
    cases expect with
    | cons c cs =>
      simp only [wfAux, Bool.and_eq_true] at h
      obtain ⟨⟨h1, h2⟩, h3⟩ := h
      simp only [List.cons_append, wfAux, h1, h2, Bool.true_and]
      exact ih h3
    | nil =>
      simp only [List.cons_append]
      simp only [wfAux] at h ⊢
      by_cases ht : (m.role == "tool") = true
      · rw [if_pos ht] at h
        exact Bool.noConfusion h
      · rw [if_neg ht] at h ⊢
        by_cases ha : (m.role == "assistant") = true
        · rw [if_pos ha] at h ⊢
          exact ih h
        · rw [if_neg ha] at h ⊢
          exact ih h

lemma resolveCalls_err_none {pj : String → Except String ToolInput}
    (hpj : ∀ s, ∃ args, pj s = Except.ok args) :
    ∀ (calls : List ToolCall) (fs : FS), (resolveCalls pj calls fs).1 = none := by
  intro calls
  induction calls with
  | nil => intro fs; rfl
  | cons c rest ih =>
    intro fs
    obtain ⟨args, ha⟩ := hpj c.arguments
    simp only [resolveCalls, ha]
    exact ih _

lemma resolveCalls_block {pj : String → Except String ToolInput} :
    ∀ (calls : List ToolCall) (fs : FS),
      (resolveCalls pj calls fs).1 = none →
      ∀ ys, wfAux calls ((resolveCalls pj calls fs).2.1 ++ ys) = wfAux [] ys := by
  intro calls
  induction calls with
  | nil =>
    intro fs _ ys
    simp [resolveCalls]
  | cons c rest ih =>
    intro fs h ys
    cases ha : pj c.arguments with
    | error e => simp [resolveCalls, ha] at h
    | ok args =>
      simp only [resolveCalls, ha] at h ⊢
      simp only [List.cons_append, wfAux, beq_self_eq_true, Bool.true_and]
      exact ih _ h ys

lemma chatLoop_preserves_wf (gw : List Message → GatewayResult)
    (pj : String → Except String ToolInput) :
    ∀ (fuel : Nat) (fs : FS) (msgs : List Message), wfConv msgs = true →
      (∀ s ∈ (chatLoop gw pj fuel fs msgs).submitted, wfConv s = true) ∧
      (∀ text,
        (chatLoop gw pj fuel fs msgs).result = some (ChatOutcome.done text) →
        wfConv (chatLoop gw pj fuel fs msgs).messages = true) := by
  intro fuel
  induction fuel with
  | zero =>
    intro fs msgs _
    refine ⟨?_, ?_⟩
    · intro s hs
      simp [chatLoop] at hs
    · intro text hres
      simp [chatLoop] at hres
  | succ n ih =>
    intro fs msgs hwf
    cases hg : gw msgs with
    | exn e =>
      simp only [chatLoop, hg]
      refine ⟨?_, ?_⟩
      · intro s hs
        simp only [List.mem_singleton] at hs
        rw [hs]
        exact hwf
      · intro text hres
        simp at hres
    | reply content calls =>
      by_cases hc : calls.isEmpty = true
      · have hnil : calls = [] := List.isEmpty_iff.mp hc
        subst hnil
        simp only [chatLoop, hg]
        rw [if_pos hc]
        refine ⟨?_, ?_⟩
        · intro s hs
          simp only [List.mem_singleton] at hs
          rw [hs]
          exact hwf
        · intro text _
          show wfAux [] (msgs ++ [assistantMsg content []]) = true
          rw [wfAux_append _ hwf]
          rfl
      · cases he : (resolveCalls pj calls fs).1 with
        | some e =>
          simp only [chatLoop, hg]
          rw [if_neg hc]
          simp only [he]
          refine ⟨?_, ?_⟩
          · intro s hs
            simp only [List.mem_singleton] at hs
            rw [hs]
            exact hwf
          · intro text hres
            simp at hres
        | none =>
          have hwf2 : wfConv ((msgs ++ [assistantMsg content calls]) ++
              (resolveCalls pj calls fs).2.1) = true := by
            show wfAux [] _ = true
            rw [List.append_assoc, wfAux_append _ hwf]
            show wfAux []
              (assistantMsg content calls :: (resolveCalls pj calls fs).2.1) = true
            simp only [wfAux, assistantMsg]
            rw [if_neg (by decide), if_pos (by decide)]
            have hb := resolveCalls_block calls fs he []
            rw [List.append_nil] at hb
            show wfAux calls ((resolveCalls pj calls fs).2.1) = true
            rw [hb]
            rfl
          have key := ih (resolveCalls pj calls fs).2.2
            ((msgs ++ [assistantMsg content calls]) ++
              (resolveCalls pj calls fs).2.1) hwf2
          simp only [chatLoop, hg]
          rw [if_neg hc]
          simp only [he]
          refine ⟨?_, ?_⟩
          · intro s hs
            simp only [List.mem_cons] at hs
            rcases hs with hs | hs
            · rw [hs]
              exact hwf
            · exact key.1 s hs
          · intro text hres
            exact key.2 text hres

lemma chatLoop_no_result_of_always_tool (gw : List Message → GatewayResult)
    (pj : String → Except String ToolInput)
    (hgw : ∀ conv, isToolReply (gw conv) = true)
    (hpj : ∀ s, ∃ args, pj s = Except.ok args) :
    ∀ (fuel : Nat) (fs : FS) (msgs : List Message),
      (chatLoop gw pj fuel fs msgs).result = none := by
  intro fuel
  induction fuel with
  | zero => intro fs msgs; rfl
  | succ n ih =>
    intro fs msgs
    cases hg : gw msgs with
    | exn e =>
      have hx := hgw msgs
      rw [hg] at hx
      simp [isToolReply] at hx
    | reply content calls =>
      have hcalls : calls.isEmpty = false := by
        have hx := hgw msgs
        rw [hg] at hx
        simpa [isToolReply] using hx
      have he : (resolveCalls pj calls fs).1 = none :=
        resolveCalls_err_none hpj calls fs
      simp only [chatLoop, hg, hcalls, Bool.false_eq_true, if_false, he]
      exact ih _ _

end Agent

namespace Agent

/-- Claim C1: in every run of `AIAgent.chat`, every tool-invocation request
of every assistant turn is answered by exactly one tool-role message with
the same invocation id, appended immediately after the assistant message in
request order; every conversation submitted to the gateway is in this
well-formed state (the loop never submits with unanswered invocations), and
a run that terminates on the no-tool-calls path (`done`) leaves the whole
conversation well-formed. -/
theorem agent_loop_answers_every_request
    (gw : List Message → GatewayResult) (pj : String → Except String ToolInput)
    (fuel : Nat) (fs : FS) (msgs : List Message) (user_input : String)
    (hwf : wfConv msgs = true) :
    (∀ s ∈ (chat gw pj fuel fs msgs user_input).submitted, wfConv s = true) ∧
    (∀ text,
      (chat gw pj fuel fs msgs user_input).result = some (ChatOutcome.done text) →
      wfConv (chat gw pj fuel fs msgs user_input).messages = true) := by
  have hwf1 : wfConv (msgs ++ [{ role := "user", content := user_input }]) = true := by
    show wfAux [] _ = true
    rw [wfAux_append _ hwf]
    rfl
  exact chatLoop_preserves_wf gw pj fuel fs _ hwf1

/-- Witness for `agent_loop_answers_every_request`: a concrete run with one
tool cycle that terminates in `done` with a well-formed conversation. -/
theorem agent_loop_answers_every_request_witness :
    (chat gwW pjW 3 fsW initialMessages "hello").result =
      some (ChatOutcome.done "All done.") ∧
    wfConv (chat gwW pjW 3 fsW initialMessages "hello").messages = true :=
  have h := agent_loop_answers_every_request gwW pjW 3 fsW initialMessages
    "hello" (by decide)
  ⟨by decide, h.2 "All done." (by decide)⟩

/-- Claim C2 (amended): the agent loop has NO cycle limit.  Whenever the
gateway answers every turn with a tool request (and arguments parse), the
loop never reaches any outcome — for every fuel bound the embedded run is
still unfinished; the source terminates only when some turn returns a
no-tool-calls reply or raises. -/
theorem agent_loop_has_no_cycle_limit
    (gw : List Message → GatewayResult) (pj : String → Except String ToolInput)
    (hgw : ∀ conv, isToolReply (gw conv) = true)
    (hpj : ∀ s, ∃ args, pj s = Except.ok args)
    (fuel : Nat) (fs : FS) (msgs : List Message) :
    (chatLoop gw pj fuel fs msgs).result = none :=
  chatLoop_no_result_of_always_tool gw pj hgw hpj fuel fs msgs

/-- Witness for `agent_loop_has_no_cycle_limit`. -/
theorem agent_loop_has_no_cycle_limit_witness :
    (chatLoop gwAlwaysTool pjW 5 fsW initialMessages).result = none :=
  agent_loop_has_no_cycle_limit gwAlwaysTool pjW (fun _ => rfl)
    (fun _ => ⟨[("path", "a.txt")], rfl⟩) 5 fsW initialMessages

/-- Counterexample to claim C2 as stated: no `CycleLimit` exists in
`AIAgent.chat` and no run with a perpetually tool-requesting gateway
terminates at all — there is no fuel at which the run yields ANY outcome,
in particular never a `CycleLimitExceeded` failure. -/
theorem cycle_limit_counterexample :
    ¬ ∃ (fuel : Nat) (outcome : ChatOutcome),
        (chatLoop gwAlwaysTool pjW fuel fsW initialMessages).result =
          some outcome := by
  rintro ⟨fuel, outcome, h⟩
  rw [chatLoop_no_result_of_always_tool gwAlwaysTool pjW (fun _ => rfl)
    (fun _ => ⟨[("path", "a.txt")], rfl⟩) fuel fsW initialMessages] at h
  cases h

end Agent
